import Mathlib

/-!
# Verification of the arch wheel-spin client's commit-reveal protocol layer

Shallow embedding of the wheel-spin client (`src/utils/transactionHelpers.ts`
and the `App.jsx` variants): instruction encoding, account lists, signature
normalization, the spin orchestration flow, and the wheel-state reader.

Bytes are modelled as `List Nat` with every entry below 256.  External
collaborators (the Web Crypto SHA-256 digest, the wallet signer, the SDK
message hash and the remote endpoint) are modelled as parameters or
environment records; everything the repository itself computes is embedded
as executable Lean definitions.
-/

namespace WheelSpin

/-- An account reference carried by an instruction, mirroring the
`Account` type of `transactionHelpers.ts`: public key plus signer and
writability flags. -/
structure AccountMeta where
  pubkey : List Nat
  is_signer : Bool
  is_writable : Bool
deriving DecidableEq, Repr

/-- An instruction, mirroring the `Instruction` type of
`transactionHelpers.ts`: program id, ordered account list and data bytes. -/
structure Instruction where
  program_id : List Nat
  accounts : List AccountMeta
  data : List Nat
deriving DecidableEq, Repr

/-- The message object assembled before hashing and signing:
`{ signers, instructions }`. -/
structure ArchMessage where
  signers : List (List Nat)
  instructions : List Instruction
deriving DecidableEq, Repr

/-- The transaction envelope `{ version: 0, signatures, message }`. -/
structure ArchTransaction where
  version : Nat
  signatures : List (List Nat)
  message : ArchMessage
deriving DecidableEq, Repr

/-- Outcome of the external wallet `signMessage` call: either `onFinish`
fires with the base64-decoded response bytes, or `onCancel` fires. -/
inductive SignResponse where
  | finish (resp : List Nat)
  | cancel
deriving DecidableEq, Repr

/-- Signature normalization from `sendTransaction`
(`transactionHelpers.ts` line 48): the decoded wallet response is
normalized with `.slice(2)`, dropping the 2-byte recovery/header part and
keeping the trailing bytes. -/
def stripSig (resp : List Nat) : List Nat :=
  resp.drop 2

/-- Embedding of `sendTransaction` (`transactionHelpers.ts`).  It builds
the message object from the public key and single instruction, has the
wallet sign the message hash (the hash itself is computed by the external
SDK and never inspected, so it does not appear), normalizes the signature
with `stripSig`, and submits `{ version: 0, signatures, message }` to the
remote endpoint.  `onCancel` throws `User cancelled signing`; an empty
response throws `No signature returned`; a remote rejection (modelled by
`accept = false`) propagates as a submission error.  The returned
transaction is the envelope the remote endpoint received. -/
def sendTransaction (publicKey : List Nat) (instruction : Instruction)
    (signResp : SignResponse) (accept : Bool) : Except String ArchTransaction :=
  let messageObj : ArchMessage := ⟨[publicKey], [instruction]⟩
  match signResp with
  | SignResponse.cancel => Except.error "User cancelled signing"
  | SignResponse.finish resp =>
    if resp = [] then Except.error "No signature returned"
    else
      let tx : ArchTransaction := ⟨0, [stripSig resp], messageObj⟩
      if accept then Except.ok tx else Except.error "submission failed"

/-- Addresses resolved from the environment configuration
(`VITE_PROGRAM_ID`, `VITE_WHEEL_STATE_ACCOUNT`, `VITE_RECENT_BLOCKHASHES`,
`VITE_SLOT_INFO`). -/
structure SpinConfig where
  programId : List Nat
  wheelStateAccount : List Nat
  recentBlockhashes : List Nat
  slotInfo : List Nat
deriving DecidableEq, Repr

/-- The `wheelState` React state: `{ isSpinning, currentPrize, prizeNumber }`. -/
structure WheelUIState where
  isSpinning : Bool
  currentPrize : Option String
  prizeNumber : Nat
deriving DecidableEq, Repr

/-- The prize options of the `wheelData` array in the main `App.jsx`
variant (`part_001`, lines 13-17). -/
def wheelData : List String :=
  ["Pub #123 ", "Loser", "Loser"]

/-- Environment outcomes for the two wallet interactions and the two
remote submissions of one spin attempt. -/
structure SpinEnv where
  commitSign : SignResponse
  commitAccept : Bool
  revealSign : SignResponse
  revealAccept : Bool
deriving DecidableEq, Repr

/-- The CommitSpin instruction built by `spinWheel` (`part_001` lines
288-306): accounts `[signer (is_signer, not writable), wheel-state
(not signer, writable)]` and data `Buffer.concat([[1], commitment])`. -/
def buildCommitInstruction (cfg : SpinConfig) (publicKey commitment : List Nat) :
    Instruction :=
  { program_id := cfg.programId
    accounts := [⟨publicKey, true, false⟩, ⟨cfg.wheelStateAccount, false, true⟩]
    data := 1 :: commitment }

/-- The RevealSpin instruction built by `spinWheel` (`part_001` lines
320-348): the same two leading accounts followed by the
recent-blockhashes and slot-info accounts, and data
`Buffer.concat([[2], userSecret])`. -/
def buildRevealInstruction (cfg : SpinConfig) (publicKey secret : List Nat) :
    Instruction :=
  { program_id := cfg.programId
    accounts := [⟨publicKey, true, false⟩, ⟨cfg.wheelStateAccount, false, true⟩,
      ⟨cfg.recentBlockhashes, false, false⟩, ⟨cfg.slotInfo, false, false⟩]
    data := 2 :: secret }

/-- The placeholder prize draw of `spinWheel` (`part_001` line 359):
`Math.floor(Math.random() * wheelData.length)`, with `Math.random()`
modelled as an exact rational `r` in `[0, 1)`. -/
def placeholderDraw (r : ℚ) : Nat :=
  (⌊r * (wheelData.length : ℚ)⌋).toNat

/-- The observable result of one `spinWheel` invocation: the React wheel
state after every timer has fired, the instructions that were built, and
the transactions accepted by the remote endpoint. -/
structure SpinResult where
  finalState : WheelUIState
  builtInstructions : List Instruction
  submittedTxs : List ArchTransaction
deriving DecidableEq, Repr

/-- Embedding of `spinWheel` from the main `App.jsx` variant (`part_001`
lines 273-378).  The guard returns immediately unless the SDK is ready, a
wallet is connected with a public key, and no spin is in flight.  A fresh
`secret` (from `crypto.getRandomValues`) is hashed by the external
SHA-256 digest `sha`; the CommitSpin instruction carrying `sha secret` is
built and sent through `sendTransaction`; after the fixed delay the
RevealSpin instruction carrying `secret` is built and sent; on success
the placeholder draw picks the prize and the timeout clears `isSpinning`.
Any thrown error is caught by the `catch` block, which resets
`isSpinning` to `false`. -/
def spinWheel (cfg : SpinConfig) (sdkReady : Bool) (hasWallet : Bool)
    (publicKey : Option (List Nat)) (st : WheelUIState)
    (sha : List Nat → List Nat) (secret : List Nat) (r : ℚ)
    (env : SpinEnv) : SpinResult :=
  match publicKey with
  | none => ⟨st, [], []⟩
  | some pk =>
    if sdkReady = false ∨ hasWallet = false ∨ st.isSpinning = true then
      ⟨st, [], []⟩
    else
      let commitment := sha secret
      let commitIx := buildCommitInstruction cfg pk commitment
      match sendTransaction pk commitIx env.commitSign env.commitAccept with
      | Except.error _ => ⟨{ st with isSpinning := false }, [commitIx], []⟩
      | Except.ok commitTx =>
        let revealIx := buildRevealInstruction cfg pk secret
        match sendTransaction pk revealIx env.revealSign env.revealAccept with
        | Except.error _ =>
          ⟨{ st with isSpinning := false }, [commitIx, revealIx], [commitTx]⟩
        | Except.ok revealTx =>
          let n := placeholderDraw r
          ⟨{ isSpinning := false, prizeNumber := n, currentPrize := wheelData.get? n },
            [commitIx, revealIx], [commitTx, revealTx]⟩

/-- Little-endian 4-byte encoding used by borsh for string and array
length fields (`u32`). -/
def u32le (n : Nat) : List Nat :=
  [n % 256, n / 256 % 256, n / 65536 % 256, n / 16777216 % 256]

/-- UTF-8 encoding of one code point, as performed by the
`TextEncoder` borsh uses on JavaScript strings. -/
def utf8EncodeCp (c : Nat) : List Nat :=
  if c < 128 then [c]
  else if c < 2048 then [192 + c / 64, 128 + c % 64]
  else if c < 65536 then [224 + c / 4096, 128 + c / 64 % 64, 128 + c % 64]
  else [240 + c / 262144, 128 + c / 4096 % 64, 128 + c / 64 % 64, 128 + c % 64]

/-- UTF-8 bytes of a string. -/
def utf8Bytes (s : String) : List Nat :=
  (s.data.map (fun c => utf8EncodeCp c.toNat)).flatten

/-- Borsh serialization of a string: `u32` byte length followed by the
UTF-8 bytes. -/
def borshStr (s : String) : List Nat :=
  u32le (utf8Bytes s).length ++ utf8Bytes s

/-- Borsh serialization of `{ array: { type: 'string' } }`: `u32`
element count followed by the serialized elements. -/
def borshStrArray (ss : List String) : List Nat :=
  u32le ss.length ++ (ss.map borshStr).flatten

/-- The `new Uint8Array(probabilities)` conversion in `initializeWheel`
(`part_001` line 109): JavaScript's `ToUint8` coerces each element
modulo 256 before borsh ever sees it. -/
def uint8ArrayOf (xs : List Nat) : List Nat :=
  xs.map (· % 256)

/-- Borsh serialization of `{ array: { type: 'u8' } }`: `u32` element
count followed by the raw bytes; borsh's integer validation errors when
an element exceeds the `u8` range. -/
def borshU8Array (xs : List Nat) : Except String (List Nat) :=
  if xs.all (· < 256) then Except.ok (u32le xs.length ++ xs)
  else Except.error "u8 out of range"

/-- Embedding of the InitializeWheel instruction-data construction in
`initializeWheel` (`part_001` lines 98-112): the discriminant byte `0`
followed by `borsh.serialize` of the struct
`{ prizes: array string, probabilities: array u8 }`, with the
probabilities first coerced through `new Uint8Array`. -/
def initializeWheelData (prizes : List String) (probabilities : List Nat) :
    Except String (List Nat) :=
  match borshU8Array (uint8ArrayOf probabilities) with
  | Except.error e => Except.error e
  | Except.ok probBytes => Except.ok (0 :: (borshStrArray prizes ++ probBytes))

/-- Reads a borsh `u32` length field from the front of a byte stream. -/
def readU32 : List Nat → Except String (Nat × List Nat)
  | b0 :: b1 :: b2 :: b3 :: rest =>
    Except.ok (b0 + 256 * b1 + 65536 * b2 + 16777216 * b3, rest)
  | _ => Except.error "unexpected end of input"

/-- Reads exactly `k` raw bytes from the front of a byte stream. -/
def readBytes (k : Nat) (l : List Nat) : Except String (List Nat × List Nat) :=
  if k ≤ l.length then Except.ok (l.take k, l.drop k)
  else Except.error "unexpected end of input"

/-- Decodes a UTF-8 byte sequence into code points; the fuel argument is
an upper bound on the number of code points (each consumes at least one
byte).  Malformed lead or continuation bytes are errors, as in
`TextDecoder` with `fatal` semantics. -/
def utf8DecodeAux : Nat → List Nat → Except String (List Nat)
  | _, [] => Except.ok []
  | 0, _ :: _ => Except.error "utf8 fuel"
  | fuel + 1, b :: rest =>
    if b < 128 then
      match utf8DecodeAux fuel rest with
      | Except.ok cs => Except.ok (b :: cs)
      | Except.error e => Except.error e
    else if b < 192 then Except.error "utf8 stray continuation"
    else if b < 224 then
      match rest with
      | b1 :: rest1 =>
        if 128 ≤ b1 ∧ b1 < 192 then
          match utf8DecodeAux fuel rest1 with
          | Except.ok cs => Except.ok (((b - 192) * 64 + (b1 - 128)) :: cs)
          | Except.error e => Except.error e
        else Except.error "utf8 bad continuation"
      | [] => Except.error "utf8 truncated"
    else if b < 240 then
      match rest with
      | b1 :: b2 :: rest2 =>
        if 128 ≤ b1 ∧ b1 < 192 ∧ 128 ≤ b2 ∧ b2 < 192 then
          match utf8DecodeAux fuel rest2 with
          | Except.ok cs =>
            Except.ok (((b - 224) * 4096 + (b1 - 128) * 64 + (b2 - 128)) :: cs)
          | Except.error e => Except.error e
        else Except.error "utf8 bad continuation"
      | _ => Except.error "utf8 truncated"
    else
      match rest with
      | b1 :: b2 :: b3 :: rest3 =>
        if 128 ≤ b1 ∧ b1 < 192 ∧ 128 ≤ b2 ∧ b2 < 192 ∧ 128 ≤ b3 ∧ b3 < 192 then
          match utf8DecodeAux fuel rest3 with
          | Except.ok cs =>
            Except.ok (((b - 240) * 262144 + (b1 - 128) * 4096 +
              (b2 - 128) * 64 + (b3 - 128)) :: cs)
          | Except.error e => Except.error e
        else Except.error "utf8 bad continuation"
      | _ => Except.error "utf8 truncated"

/-- Decodes a UTF-8 byte list into a string. -/
def utf8DecodeBytes (l : List Nat) : Except String String :=
  match utf8DecodeAux l.length l with
  | Except.ok cs => Except.ok (String.mk (cs.map Char.ofNat))
  | Except.error e => Except.error e

/-- Reads `k` borsh strings from the front of a byte stream. -/
def readStrs : Nat → List Nat → Except String (List String × List Nat)
  | 0, l => Except.ok ([], l)
  | k + 1, l => do
    let (n, l1) ← readU32 l
    let (bs, l2) ← readBytes n l1
    let s ← utf8DecodeBytes bs
    let (ss, l3) ← readStrs k l2
    Except.ok (s :: ss, l3)

/-- Reads `k` borsh `u8` values from the front of a byte stream. -/
def readU8s : Nat → List Nat → Except String (List Nat × List Nat)
  | 0, l => Except.ok ([], l)
  | k + 1, l =>
    match l with
    | [] => Except.error "unexpected end of input"
    | b :: rest =>
      match readU8s k rest with
      | Except.ok (xs, r) => Except.ok (b :: xs, r)
      | Except.error e => Except.error e

/-- Borsh deserialization of the InitializeWheel payload struct
`{ prizes: array string, probabilities: array u8 }` (the read direction
of the schema used at `part_001` lines 100-111), including borsh's check
that every input byte is consumed. -/
def decodeInitPayload (l : List Nat) : Except String (List String × List Nat) := do
  let (np, l1) ← readU32 l
  let (prizes, l2) ← readStrs np l1
  let (nq, l3) ← readU32 l2
  let (probs, l4) ← readU8s nq l3
  if l4 = [] then Except.ok (prizes, probs)
  else Except.error "unexpected bytes after deserialized data"

/-- The decoded view of the wheel-state account used by
`checkWheelState`. -/
structure WheelStateView where
  initialized : Bool
  prizes : List String
  probabilities : List Nat
deriving DecidableEq, Repr

/-- Reads a borsh `bool`: one byte that must be `0` or `1`. -/
def readBool : List Nat → Except String (Bool × List Nat)
  | [] => Except.error "unexpected end of input"
  | 0 :: rest => Except.ok (false, rest)
  | 1 :: rest => Except.ok (true, rest)
  | _ :: _ => Except.error "invalid bool"

/-- Borsh deserialization of the WheelState layout used in
`checkWheelState` (`part_001` lines 42-52):
`{ initialized: bool, prizes: array string, probabilities: array u8 }`,
including borsh's trailing-bytes check. -/
def decodeWheelState (l : List Nat) : Except String WheelStateView := do
  let (ini, l1) ← readBool l
  let (np, l2) ← readU32 l1
  let (prizes, l3) ← readStrs np l2
  let (nq, l4) ← readU32 l3
  let (probs, l5) ← readU8s nq l4
  if l5 = [] then Except.ok ⟨ini, prizes, probs⟩
  else Except.error "unexpected bytes after deserialized data"

/-- Embedding of `checkWheelState` (`part_001` lines 31-68).  The input
is the raw account data the read returned (`none` when the account read
failed or reported no data).  When data is present the borsh decode is
attempted inside its own try/catch: on success the decoded `initialized`
flag is reported, on failure the catch block reports `false`; the raw
data is returned either way.  Every failure path is caught, so the
function is total and never propagates a decode exception. -/
def checkWheelState (accountData : Option (List Nat)) :
    Bool × Option (List Nat) :=
  match accountData with
  | none => (false, none)
  | some d =>
    match decodeWheelState d with
    | Except.ok ws => (ws.initialized, some d)
    | Except.error _ => (false, some d)

/-- The reveal-signature handling of the second `App.jsx` variant
(`part_001` lines 611-614): `Uint8Array.from(Buffer.from(response,
'base64'))` stores the decoded wallet response as the signature without
any stripping. -/
def revealSignatureNoStrip (resp : List Nat) : List Nat :=
  resp

/-- Models `crypto.getRandomValues(new Uint8Array(32))` at the start of
spin attempt `i` (`part_001` line 284): a fresh 32-byte block drawn from
the cryptographic random source, where `rnd i k` is the k-th random byte
produced for attempt `i`. -/
def getRandomValues32 (rnd : Nat → Nat → Nat) (i : Nat) : List Nat :=
  (List.range 32).map (rnd i)

theorem getRandomValues32_length (rnd : Nat → Nat → Nat) (i : Nat) :
    (getRandomValues32 rnd i).length = 32 := by
  simp [getRandomValues32]

/-- C1: for every spin attempt, the client generates a fresh 32-byte
secret; the commitment carried in the attempt's CommitSpin instruction
data is the digest of exactly that secret (the SHA-256 primitive is the
external Web Crypto call, modelled by the parameter `sha`); the very same
secret is carried in the attempt's RevealSpin instruction data; and,
provided the random source never repeats a 32-byte block across attempts,
no secret is reused across spin attempts. -/
theorem spin_secret_commitment (cfg : SpinConfig) (pk : List Nat)
    (sha : List Nat → List Nat) (rnd : Nat → Nat → Nat)
    (hfresh : ∀ i j : Nat, i ≠ j →
      getRandomValues32 rnd i ≠ getRandomValues32 rnd j)
    (i j : Nat) (hij : i ≠ j)
    (st : WheelUIState) (hst : st.isSpinning = false) (r : ℚ) (env : SpinEnv)
    (c rv : List Nat) (hc : env.commitSign = SignResponse.finish c)
    (hc0 : c ≠ []) (hca : env.commitAccept = true)
    (hrv : env.revealSign = SignResponse.finish rv) (hrv0 : rv ≠ [])
    (hra : env.revealAccept = true) :
    (getRandomValues32 rnd i).length = 32 ∧
    (spinWheel cfg true true (some pk) st sha (getRandomValues32 rnd i) r
        env).builtInstructions =
      [buildCommitInstruction cfg pk (sha (getRandomValues32 rnd i)),
        buildRevealInstruction cfg pk (getRandomValues32 rnd i)] ∧
    (buildCommitInstruction cfg pk (sha (getRandomValues32 rnd i))).data =
      1 :: sha (getRandomValues32 rnd i) ∧
    (buildRevealInstruction cfg pk (getRandomValues32 rnd i)).data =
      2 :: getRandomValues32 rnd i ∧
    getRandomValues32 rnd i ≠ getRandomValues32 rnd j := by
  refine ⟨getRandomValues32_length rnd i, ?_, rfl, rfl, hfresh i j hij⟩
  simp [spinWheel, hst, sendTransaction, hc, hca, hrv, hra, hc0, hrv0]

/-- Witness for C1 at a concrete random source, digest, configuration and
environment. -/
theorem spin_secret_commitment_witness :
    (getRandomValues32 (fun a _ => a) 0).length = 32 ∧
    (spinWheel ⟨[5], [6], [7], [8]⟩ true true (some [9]) ⟨false, none, 0⟩ id
        (getRandomValues32 (fun a _ => a) 0) 0
        ⟨SignResponse.finish [1, 2], true, SignResponse.finish [3, 4],
          true⟩).builtInstructions =
      [buildCommitInstruction ⟨[5], [6], [7], [8]⟩ [9]
          (id (getRandomValues32 (fun a _ => a) 0)),
        buildRevealInstruction ⟨[5], [6], [7], [8]⟩ [9]
          (getRandomValues32 (fun a _ => a) 0)] ∧
    (buildCommitInstruction ⟨[5], [6], [7], [8]⟩ [9]
        (id (getRandomValues32 (fun a _ => a) 0))).data =
      1 :: id (getRandomValues32 (fun a _ => a) 0) ∧
    (buildRevealInstruction ⟨[5], [6], [7], [8]⟩ [9]
        (getRandomValues32 (fun a _ => a) 0)).data =
      2 :: getRandomValues32 (fun a _ => a) 0 ∧
    getRandomValues32 (fun a _ => a) 0 ≠ getRandomValues32 (fun a _ => a) 1 :=
  spin_secret_commitment ⟨[5], [6], [7], [8]⟩ [9] id (fun a _ => a)
    (fun i j hij h => hij (by
      have h' : List.replicate 32 i = List.replicate 32 j := by
        simpa [getRandomValues32, List.map_const'] using h
      have h'' : i :: List.replicate 31 i = j :: List.replicate 31 j := h'
      exact (List.cons.injEq _ _ _ _ ▸ h'').1))
    0 1 (by decide) ⟨false, none, 0⟩ rfl 0
    ⟨SignResponse.finish [1, 2], true, SignResponse.finish [3, 4], true⟩
    [1, 2] [3, 4] rfl (by decide) rfl rfl (by decide) rfl

/-- C3: the CommitSpin instruction's ordered account list is exactly the
connected signer (is_signer, not writable) followed by the wheel-state
account (not signer, writable), and nothing else. -/
theorem commitSpin_accounts_exact (cfg : SpinConfig) (pk commitment : List Nat) :
    (buildCommitInstruction cfg pk commitment).accounts =
      [⟨pk, true, false⟩, ⟨cfg.wheelStateAccount, false, true⟩] :=
  rfl

/-- C4: a spin request made while a spin is already in flight
(`isSpinning` true) is rejected by the guard: the state is unchanged, no
instruction (in particular no second CommitSpin) is built, and nothing is
submitted or queued. -/
theorem spin_in_flight_rejected (cfg : SpinConfig) (sdkReady hasWallet : Bool)
    (publicKey : Option (List Nat)) (st : WheelUIState)
    (sha : List Nat → List Nat) (secret : List Nat) (r : ℚ) (env : SpinEnv)
    (h : st.isSpinning = true) :
    spinWheel cfg sdkReady hasWallet publicKey st sha secret r env =
      ⟨st, [], []⟩ := by
  cases publicKey with
  | none => rfl
  | some pk => simp [spinWheel, h]

/-- Witness for C4 at a concrete in-flight state. -/
theorem spin_in_flight_rejected_witness :
    spinWheel ⟨[5], [6], [7], [8]⟩ true true (some [9]) ⟨true, none, 0⟩ id [] 0
      ⟨SignResponse.finish [1, 2], true, SignResponse.finish [3, 4], true⟩ =
      ⟨⟨true, none, 0⟩, [], []⟩ :=
  spin_in_flight_rejected ⟨[5], [6], [7], [8]⟩ true true (some [9])
    ⟨true, none, 0⟩ id [] 0
    ⟨SignResponse.finish [1, 2], true, SignResponse.finish [3, 4], true⟩ rfl

/-- C5: if signing or submission fails at the commit step (user
cancellation included), the attempt lands in the failed state: the spin
affordance is re-enabled (`isSpinning` is reset to `false`), only the
CommitSpin instruction was ever built — no instruction with the RevealSpin
discriminant 2 exists — and no transaction was accepted. -/
theorem commit_failure_terminal (cfg : SpinConfig) (pk : List Nat)
    (st : WheelUIState) (sha : List Nat → List Nat) (secret : List Nat)
    (r : ℚ) (env : SpinEnv) (e : String) (hst : st.isSpinning = false)
    (hfail : sendTransaction pk (buildCommitInstruction cfg pk (sha secret))
        env.commitSign env.commitAccept = Except.error e) :
    (spinWheel cfg true true (some pk) st sha secret r
        env).finalState.isSpinning = false ∧
    (spinWheel cfg true true (some pk) st sha secret r env).builtInstructions =
      [buildCommitInstruction cfg pk (sha secret)] ∧
    (∀ ix ∈ (spinWheel cfg true true (some pk) st sha secret r
        env).builtInstructions, ix.data.head? ≠ some 2) ∧
    (spinWheel cfg true true (some pk) st sha secret r env).submittedTxs = [] := by
  simp only [spinWheel, hst]
  simp [hfail]
  simp [buildCommitInstruction]

/-- Witness for C5: the user cancels the wallet interaction at the commit
step. -/
theorem commit_failure_terminal_witness :
    (spinWheel ⟨[5], [6], [7], [8]⟩ true true (some [9]) ⟨false, none, 0⟩ id
        [3] 0 ⟨SignResponse.cancel, true, SignResponse.finish [3, 4],
          true⟩).finalState.isSpinning = false ∧
    (spinWheel ⟨[5], [6], [7], [8]⟩ true true (some [9]) ⟨false, none, 0⟩ id
        [3] 0 ⟨SignResponse.cancel, true, SignResponse.finish [3, 4],
          true⟩).builtInstructions =
      [buildCommitInstruction ⟨[5], [6], [7], [8]⟩ [9] (id [3])] ∧
    (∀ ix ∈ (spinWheel ⟨[5], [6], [7], [8]⟩ true true (some [9])
        ⟨false, none, 0⟩ id [3] 0 ⟨SignResponse.cancel, true,
          SignResponse.finish [3, 4], true⟩).builtInstructions,
      ix.data.head? ≠ some 2) ∧
    (spinWheel ⟨[5], [6], [7], [8]⟩ true true (some [9]) ⟨false, none, 0⟩ id
        [3] 0 ⟨SignResponse.cancel, true, SignResponse.finish [3, 4],
          true⟩).submittedTxs = [] :=
  commit_failure_terminal ⟨[5], [6], [7], [8]⟩ [9] ⟨false, none, 0⟩ id [3] 0
    ⟨SignResponse.cancel, true, SignResponse.finish [3, 4], true⟩
    "User cancelled signing" rfl rfl

/-- C8: for every commitment `C`, the CommitSpin instruction data is the
discriminant byte 1 followed immediately by `C`; when `C` has 32 bytes the
data has exactly 33 bytes. -/
theorem commitSpin_data_layout (cfg : SpinConfig) (pk C : List Nat)
    (hC : C.length = 32) :
    (buildCommitInstruction cfg pk C).data = 1 :: C ∧
    (buildCommitInstruction cfg pk C).data.length = 33 := by
  exact ⟨rfl, by simp [buildCommitInstruction, hC]⟩

/-- Witness for C8 at a concrete 32-byte commitment. -/
theorem commitSpin_data_layout_witness :
    (buildCommitInstruction ⟨[5], [6], [7], [8]⟩ [9]
        (List.replicate 32 7)).data = 1 :: List.replicate 32 7 ∧
    (buildCommitInstruction ⟨[5], [6], [7], [8]⟩ [9]
        (List.replicate 32 7)).data.length = 33 :=
  commitSpin_data_layout ⟨[5], [6], [7], [8]⟩ [9] (List.replicate 32 7)
    (by decide)

/-- A decoded wallet response of 66 bytes: a 2-byte recovery/header part
followed by a 64-byte signature. -/
def sigResponse66 : List Nat :=
  7 :: 8 :: List.replicate 64 9

/-- C2: the `sendTransaction` helper normalizes the decoded wallet
response with `.slice(2)` down to the canonical 64 bytes, but the inline
reveal path of the second `App.jsx` variant (`part_001` lines 611-614)
stores the decoded response without stripping, so a 66-byte response
yields a 66-byte signature there: the stripping rule is not applied to
every signing path. -/
theorem reveal_path_skips_stripping :
    sigResponse66.length = 66 ∧
    (stripSig sigResponse66).length = 64 ∧
    (∃ tx, sendTransaction [9]
        (buildCommitInstruction ⟨[5], [6], [7], [8]⟩ [9] [1])
        (SignResponse.finish sigResponse66) true = Except.ok tx ∧
      tx.signatures = [stripSig sigResponse66]) ∧
    (revealSignatureNoStrip sigResponse66).length = 66 ∧
    revealSignatureNoStrip sigResponse66 ≠ stripSig sigResponse66 :=
  ⟨by decide, by decide, ⟨_, rfl, rfl⟩, by decide, by decide⟩

/-- C6 counterexample: `initializeWheel` encodes mismatched-length prize
and probability sequences without any error, contradicting the claim
that encoding fails whenever the two lengths differ. -/
theorem initializeWheel_mismatched_lengths_encode :
    (["A"] : List String).length ≠ ([1, 2] : List Nat).length ∧
    initializeWheelData ["A"] [1, 2] =
      Except.ok [0, 1, 0, 0, 0, 1, 0, 0, 0, 65, 2, 0, 0, 0, 1, 2] :=
  ⟨by decide, rfl⟩

/-- C6 (amended): the InitializeWheel encoder never fails: it performs no
length-equality check between prizes and probabilities, and a numeric
field exceeding its width is coerced modulo 256 by the `new Uint8Array`
conversion before borsh's range validation can see it (a probability of
300 encodes as the byte 44). -/
theorem initializeWheel_encoding_never_fails :
    (∀ (prizes : List String) (probs : List Nat),
      ∃ bs, initializeWheelData prizes probs = Except.ok bs) ∧
    initializeWheelData ["A"] [300] =
      Except.ok [0, 1, 0, 0, 0, 1, 0, 0, 0, 65, 1, 0, 0, 0, 44] := by
  constructor
  · intro prizes probs
    have hall : (uint8ArrayOf probs).all (· < 256) = true := by
      rw [List.all_eq_true]
      intro x hx
      simp only [uint8ArrayOf, List.mem_map] at hx
      obtain ⟨y, _, rfl⟩ := hx
      simpa using Nat.mod_lt y (by norm_num)
    refine ⟨0 :: (borshStrArray prizes ++
      (u32le (uint8ArrayOf probs).length ++ uint8ArrayOf probs)), ?_⟩
    simp [initializeWheelData, borshU8Array, hall]
  · rfl

/-- C7: the InitializeWheel scenario with prizes A, B, C and
probabilities 34, 33, 33: the instruction data is the discriminant byte 0
followed by the length-prefixed string array and the length-prefixed byte
array, and decoding the payload reproduces the same prizes and
probabilities. -/
theorem initializeWheel_scenario_roundtrip :
    initializeWheelData ["A", "B", "C"] [34, 33, 33] =
      Except.ok [0, 3, 0, 0, 0, 1, 0, 0, 0, 65, 1, 0, 0, 0, 66, 1, 0, 0, 0, 67,
        3, 0, 0, 0, 34, 33, 33] ∧
    ([0, 3, 0, 0, 0, 1, 0, 0, 0, 65, 1, 0, 0, 0, 66, 1, 0, 0, 0, 67,
        3, 0, 0, 0, 34, 33, 33] : List Nat) =
      0 :: (borshStrArray ["A", "B", "C"] ++ (u32le 3 ++ [34, 33, 33])) ∧
    decodeInitPayload [3, 0, 0, 0, 1, 0, 0, 0, 65, 1, 0, 0, 0, 66, 1, 0, 0, 0,
        67, 3, 0, 0, 0, 34, 33, 33] =
      Except.ok (["A", "B", "C"], [34, 33, 33]) :=
  ⟨rfl, rfl, rfl⟩

/-- C9: the wheel-state reader reports `initialized = false` and returns
normally when the account bytes are absent, zero-length, or fail to
decode per the WheelState layout; the decode failure is absorbed by the
catch block rather than propagated (the embedding of `checkWheelState` is
a total function whose error branch models that catch). -/
theorem checkWheelState_tolerant (d : List Nat) (e : String)
    (h : decodeWheelState d = Except.error e) :
    checkWheelState none = (false, none) ∧
    checkWheelState (some []) = (false, some []) ∧
    checkWheelState (some d) = (false, some d) := by
  refine ⟨rfl, rfl, ?_⟩
  simp [checkWheelState, h]

/-- Witness for C9 at a concrete undecodable byte string (a lone byte 2
is not a valid borsh bool). -/
theorem checkWheelState_tolerant_witness :
    checkWheelState none = (false, none) ∧
    checkWheelState (some []) = (false, some []) ∧
    checkWheelState (some [2]) = (false, some [2]) :=
  checkWheelState_tolerant [2] "invalid bool" rfl

theorem placeholderDraw_lt_length (r : ℚ) (_h0 : 0 ≤ r) (h1 : r < 1) :
    placeholderDraw r < wheelData.length := by
  have hlen : ((wheelData.length : ℚ)) = 3 := by norm_num [wheelData]
  have hmul : r * (wheelData.length : ℚ) < 3 := by
    rw [hlen]; nlinarith
  have hfl : ⌊r * (wheelData.length : ℚ)⌋ < (3 : ℤ) := by
    apply Int.floor_lt.2
    exact_mod_cast hmul
  have hlen3 : wheelData.length = 3 := by norm_num [wheelData]
  rw [placeholderDraw]
  rw [hlen3] at hfl ⊢
  omega

/-- C10: after a fully successful spin, the placeholder draw yields a
prize index strictly below the length of the configured prize list, and
the prize looked up at that index is defined and is one of the configured
prizes. -/
theorem spin_prize_in_range (cfg : SpinConfig) (pk : List Nat)
    (st : WheelUIState) (sha : List Nat → List Nat) (secret : List Nat)
    (r : ℚ) (env : SpinEnv) (c rv : List Nat)
    (h0 : 0 ≤ r) (h1 : r < 1) (hst : st.isSpinning = false)
    (hc : env.commitSign = SignResponse.finish c) (hc0 : c ≠ [])
    (hca : env.commitAccept = true)
    (hrv : env.revealSign = SignResponse.finish rv) (hrv0 : rv ≠ [])
    (hra : env.revealAccept = true) :
    (spinWheel cfg true true (some pk) st sha secret r
        env).finalState.prizeNumber < wheelData.length ∧
    ∃ p, (spinWheel cfg true true (some pk) st sha secret r
        env).finalState.currentPrize = some p ∧ p ∈ wheelData := by
  have hn : placeholderDraw r < wheelData.length :=
    placeholderDraw_lt_length r h0 h1
  have hred : (spinWheel cfg true true (some pk) st sha secret r
      env).finalState = ⟨false, wheelData.get? (placeholderDraw r),
        placeholderDraw r⟩ := by
    simp [spinWheel, hst, sendTransaction, hc, hca, hrv, hra, hc0, hrv0]
  rw [hred]
  have h3 : placeholderDraw r < 3 := by
    simpa [wheelData] using hn
  refine ⟨hn, ?_⟩
  have hcases : placeholderDraw r = 0 ∨ placeholderDraw r = 1 ∨
      placeholderDraw r = 2 := by omega
  rcases hcases with h | h | h <;> rw [h] <;> simp [wheelData]

/-- Witness for C10 with the draw at one half. -/
theorem spin_prize_in_range_witness :
    (spinWheel ⟨[5], [6], [7], [8]⟩ true true (some [9]) ⟨false, none, 0⟩ id
        [3] (1 / 2) ⟨SignResponse.finish [1, 2], true,
          SignResponse.finish [3, 4], true⟩).finalState.prizeNumber <
      wheelData.length ∧
    ∃ p, (spinWheel ⟨[5], [6], [7], [8]⟩ true true (some [9]) ⟨false, none, 0⟩
        id [3] (1 / 2) ⟨SignResponse.finish [1, 2], true,
          SignResponse.finish [3, 4], true⟩).finalState.currentPrize =
      some p ∧ p ∈ wheelData :=
  spin_prize_in_range ⟨[5], [6], [7], [8]⟩ [9] ⟨false, none, 0⟩ id [3] (1 / 2)
    ⟨SignResponse.finish [1, 2], true, SignResponse.finish [3, 4], true⟩
    [1, 2] [3, 4] (le_of_lt one_half_pos) one_half_lt_one rfl rfl (by decide)
    rfl rfl (by decide) rfl

end WheelSpin
